import Mathlib

/-!
Verification of the transaction-validation and double-spend-prevention core
of the planetmint ledger, against its natural-language specification.

The validator, FastQuery and commit-gateway implementations are not part of
the checked-in sources (only their tests and the Tarantool connection shim
are), so the definitions below are modelled from the specification's
description of the data model (§3), FastQuery (§4.2), the Validator state
machine (§4.3) and the Commit/Storage Gateway contract (§4.4), pinned where
the checked-in tests fix observable behaviour (error messages and the
dispatch of `get_outputs_filtered`).
-/

/-- Public keys are modelled as opaque strings (the ed25519 key material is an
external library capability per the spec). -/
abbrev PublicKey := String

/-- Modelled from the spec: `TransactionLink` is the pair
`(transaction_id, output_index)` used to navigate from an input back to the
output it claims to spend. -/
structure TransactionLink where
  txid : String
  output : Nat
deriving DecidableEq

/-- Modelled from the spec: an `Output` carries a positive integer amount and
a threshold condition over an ordered list of candidate owner keys.  The
condition is represented by its key list. -/
structure Output where
  amount : Int
  public_keys : List PublicKey
deriving DecidableEq

/-- Modelled from the spec: a cryptographic fulfillment, abstracting the
external cryptoconditions library.  `parses` is false for byte strings that
are not well-formed fulfillment URIs (such as the all-zero placeholder used
in the tamper tests); `signers` is the set of keys whose signatures the
fulfillment carries and verifies. -/
structure Fulfillment where
  parses : Bool
  signers : List PublicKey
deriving DecidableEq

/-- Modelled from the spec: an `Input` holds a fulfillment, an optional link
to the prior output it spends (`none` only legal for CREATE), and the list of
owners before the spend. -/
structure Input where
  fulfillment : Fulfillment
  fulfills : Option TransactionLink
  owners_before : List PublicKey
deriving DecidableEq

/-- Transaction operations, per the spec's data model. -/
inductive Operation where
  | CREATE
  | TRANSFER
  | COMPOSE
  | DECOMPOSE
deriving DecidableEq

mutual

/-- A JSON-like document for asset payloads and metadata; string leaves and
string-keyed objects are enough to express the nested-key schema checks.
Objects are given by their own field-list type so that all recursion over
documents is structural. -/
inductive JValue where
  | str : String → JValue
  | obj : JObject → JValue

inductive JObject where
  | nil : JObject
  | cons : String → JValue → JObject → JObject

end

/-- Modelled from the spec: a transaction with content-addressed `id`,
operation, ordered inputs and outputs, asset payloads/references, metadata
and version. -/
structure Transaction where
  id : String
  operation : Operation
  inputs : List Input
  outputs : List Output
  assets : List JValue
  metadata : Option JValue
  version : String

/-- The committed ledger: transactions in commit order, as delivered by the
external consensus layer. -/
abbrev Ledger := List Transaction

/-- Name of an operation, used by the canonical serialization. -/
def Operation.name : Operation → String
  | .CREATE => "CREATE"
  | .TRANSFER => "TRANSFER"
  | .COMPOSE => "COMPOSE"
  | .DECOMPOSE => "DECOMPOSE"

/-- Canonical serialization of a key list. -/
def serKeys (ks : List PublicKey) : String :=
  String.intercalate "," ks

/-- Canonical serialization of a fulfillment. -/
def serFulfillment (f : Fulfillment) : String :=
  (if f.parses then "F" else "X") ++ "(" ++ serKeys f.signers ++ ")"

/-- Canonical serialization of an optional transaction link. -/
def serLink : Option TransactionLink → String
  | none => "-"
  | some l => l.txid ++ ":" ++ toString l.output

/-- Canonical serialization of an input. -/
def serInput (i : Input) : String :=
  serFulfillment i.fulfillment ++ "|" ++ serLink i.fulfills ++ "|" ++ serKeys i.owners_before

/-- Canonical serialization of an output. -/
def serOutput (o : Output) : String :=
  toString o.amount ++ "->" ++ serKeys o.public_keys

mutual

/-- Canonical serialization of a JSON-like document. -/
def serJValue : JValue → String
  | .str s => "v(" ++ s ++ ")"
  | .obj o => "o(" ++ serJObject o ++ ")"

/-- Canonical serialization of an object's field list. -/
def serJObject : JObject → String
  | .nil => ""
  | .cons k v rest => k ++ "=" ++ serJValue v ++ ";" ++ serJObject rest

end

/-- Canonical serialization of optional metadata. -/
def serMeta : Option JValue → String
  | none => "-"
  | some m => serJValue m

/-- Modelled from the spec: the content-addressed id of a transaction is the
canonical hash of its body excluding the `id` field itself.  The hash is
idealized as an injective canonical serialization (design note §9:
"deterministic, field-order-independent canonical encoding"). -/
def hashOfBody (t : Transaction) : String :=
  "tx(" ++ t.operation.name
    ++ "#" ++ String.intercalate "/" (t.inputs.map serInput)
    ++ "#" ++ String.intercalate "/" (t.outputs.map serOutput)
    ++ "#" ++ String.intercalate "/" (t.assets.map serJValue)
    ++ "#" ++ serMeta t.metadata
    ++ "#" ++ t.version ++ ")"

/-- Stamp a transaction with its canonical content-addressed id. -/
def withId (t : Transaction) : Transaction :=
  { t with id := hashOfBody t }

/-- Modelled from the spec (§4.4): point lookup of a committed transaction by
its id. -/
def getTransaction (L : Ledger) (txid : String) : Option Transaction :=
  L.find? fun t => decide (t.id = txid)

/-- Modelled from the spec (§4.2): `get_spent(transaction_id, output_index)`
returns the committed transaction that spent the referenced output, or `none`
if it is unspent or does not exist. -/
def get_spent (L : Ledger) (txid : String) (idx : Nat) : Option Transaction :=
  L.find? fun t => t.inputs.any fun i => decide (i.fulfills = some ⟨txid, idx⟩)

/-- Whether a link is spent by some committed transaction. -/
def isSpentLink (L : Ledger) (l : TransactionLink) : Bool :=
  (get_spent L l.txid l.output).isSome

/-- Modelled from the spec (§4.2): the ordered list of output links addressed
to a public key, in insertion (commit, then output-index) order. -/
def get_outputs_by_public_key (L : Ledger) (pk : PublicKey) : List TransactionLink :=
  L.flatMap fun t =>
    t.outputs.enum.filterMap fun p =>
      if p.2.public_keys.contains pk then some ⟨t.id, p.1⟩ else none

/-- Modelled from the spec (§4.2) as pinned by the checked-in dispatch tests:
`filter_spent_outputs` removes the links already spent, keeping the unspent
subset. -/
def filter_spent_outputs (L : Ledger) (links : List TransactionLink) : List TransactionLink :=
  links.filter fun l => !(isSpentLink L l)

/-- Modelled from the spec (§4.2) as pinned by the checked-in dispatch tests:
`filter_unspent_outputs` removes the links not yet spent, keeping the spent
subset. -/
def filter_unspent_outputs (L : Ledger) (links : List TransactionLink) : List TransactionLink :=
  links.filter fun l => isSpentLink L l

/-- Modelled from the spec as pinned by the checked-in mock-dispatch tests
(`test_get_outputs_filtered*`): with `spent = some true` the spent subset is
returned via `filter_unspent_outputs`, with `spent = some false` the unspent
subset via `filter_spent_outputs`, and with no `spent` argument the full
ownership list is returned unfiltered. -/
def get_outputs_filtered (L : Ledger) (pk : PublicKey) (spent : Option Bool) :
    List TransactionLink :=
  match spent with
  | none => get_outputs_by_public_key L pk
  | some true => filter_unspent_outputs L (get_outputs_by_public_key L pk)
  | some false => filter_spent_outputs L (get_outputs_by_public_key L pk)

/-- Validation failures, per the spec's error taxonomy (§7).  `AmountError`
carries the two sums it reports (§4.3 step 5: "carrying both sums in the
message for diagnostics"). -/
inductive ValidationError where
  | SchemaError (msg : String)
  | InvalidHash
  | InvalidSignature
  | InputDoesNotExist
  | DoubleSpend
  | AmountError (inputSum outputSum : Int)
deriving DecidableEq

/-- Diagnostic message of an `AmountError`, as asserted verbatim by the
checked-in web test `test_post_wrong_asset_division_transfer_returns_400`. -/
def amountErrorMessage (inputSum outputSum : Int) : String :=
  "The amount used in the inputs `" ++ toString inputSum
    ++ "` needs to be same as the amount used in the outputs `"
    ++ toString outputSum ++ "`"

/-- Diagnostic message for a reserved character in an asset/metadata key, as
asserted verbatim by the checked-in web test
`test_post_create_transaction_with_invalid_key`. -/
def invalidKeyMessage (k field : String) : String :=
  "Invalid key name \"" ++ k ++ "\" in " ++ field
    ++ " object. The key name cannot contain characters \".\", \"$\" or null characters"

/-- Human-readable rendering of a validation error. -/
def ValidationError.message : ValidationError → String
  | .SchemaError m => m
  | .InvalidHash => "The transaction id is not equal to the hash of its body"
  | .InvalidSignature => "Fulfillment URI couldn't been parsed"
  | .InputDoesNotExist => "input does not exist"
  | .DoubleSpend => "input was already spent"
  | .AmountError i o => amountErrorMessage i o

/-- Whether a key contains one of the characters reserved for backend
indexing: a dot, a dollar sign, or a null byte. -/
def badKey (k : String) : Bool :=
  k.data.any fun c => c == '.' || c == '$' || c == Char.ofNat 0

mutual

/-- First offending key (depth-first) of a JSON-like document, if any. -/
def findBadKeyIn : JValue → Option String
  | .str _ => none
  | .obj o => findBadKeyObj o

/-- First offending key (depth-first) of an object's field list, if any. -/
def findBadKeyObj : JObject → Option String
  | .nil => none
  | .cons k v rest =>
    if badKey k then some k
    else
      match findBadKeyIn v with
      | some k' => some k'
      | none => findBadKeyObj rest

end

/-- First offending key across a list of documents, if any. -/
def findBadKeyList : List JValue → Option String
  | [] => none
  | v :: rest =>
    match findBadKeyIn v with
    | some k => some k
    | none => findBadKeyList rest

/-- First offending key of the metadata document of a transaction, if any. -/
def findBadKeyMetadata (t : Transaction) : Option String :=
  match t.metadata with
  | none => none
  | some m => findBadKeyIn m

/-- Modelled from the spec (§4.1): schema validation rejects asset or
metadata keys containing `.`, `$`, or null bytes at any nesting depth,
naming the offending key; runs before any cryptographic or storage work. -/
def checkKeys (t : Transaction) : Except ValidationError Unit :=
  match findBadKeyList t.assets with
  | some k => .error (.SchemaError (invalidKeyMessage k "asset"))
  | none =>
    match findBadKeyMetadata t with
    | some k => .error (.SchemaError (invalidKeyMessage k "metadata"))
    | none => .ok ()

/-- Modelled from the spec (§4.1): structural schema validation — nonempty
inputs and outputs, positive integer amounts, CREATE inputs fulfill no prior
output, non-CREATE inputs each fulfill a prior output and carry an asset
reference. -/
def checkStructure (t : Transaction) : Except ValidationError Unit :=
  if t.inputs.isEmpty then .error (.SchemaError "a transaction needs at least one input")
  else if t.outputs.isEmpty then .error (.SchemaError "a transaction needs at least one output")
  else if t.outputs.any fun o => decide (o.amount ≤ 0) then
    .error (.SchemaError "output amount must be a positive integer")
  else match t.operation with
    | .CREATE =>
      if t.inputs.all fun i => i.fulfills.isNone then .ok ()
      else .error (.SchemaError "a CREATE input cannot fulfill a prior output")
    | _ =>
      if t.inputs.all fun i => i.fulfills.isSome then
        if t.assets.isEmpty then .error (.SchemaError "an asset reference is required")
        else .ok ()
      else .error (.SchemaError "a non CREATE input must fulfill a prior output")

/-- Modelled from the spec (§4.3 step 1): the identity check recomputes the
content hash of the body and fails with `InvalidHash` on mismatch. -/
def checkHash (t : Transaction) : Except ValidationError Unit :=
  if t.id = hashOfBody t then .ok () else .error .InvalidHash

/-- Modelled from the spec (§4.3 step 2): a fulfillment satisfies a condition
iff it parses and carries a verifying signature for every key of the
condition. -/
def fulfillmentValid (f : Fulfillment) (keys : List PublicKey) : Bool :=
  f.parses && keys.all fun k => f.signers.contains k

/-- Each input's fulfillment must satisfy its resolved condition (the lists
are always of equal length at the call sites). -/
def signaturesValid (conds : List (List PublicKey)) (inputs : List Input) : Bool :=
  (List.zip conds inputs).all fun p => fulfillmentValid p.2.fulfillment p.1

/-- Modelled from the spec (§4.3 steps 2–3): resolve the prior output a link
refers to, consulting the committed ledger first and then the explicitly
supplied list of not-yet-committed candidates; `none` for an unknown
transaction id or an out-of-range output index. -/
def resolveOutput (L : Ledger) (cands : List Transaction) (link : TransactionLink) :
    Option Output :=
  match getTransaction L link.txid with
  | some t => t.outputs[link.output]?
  | none =>
    match getTransaction cands link.txid with
    | some t => t.outputs[link.output]?
    | none => none

/-- Whether a link is claimed by a transaction in the candidate list. -/
def spentInCandidates (cands : List Transaction) (link : TransactionLink) : Bool :=
  cands.any fun c => c.inputs.any fun i => decide (i.fulfills = some link)

/-- Modelled from the spec (§4.3 step 4): a link is a double spend if it is
already marked spent by a committed transaction or claimed by a supplied
not-yet-committed candidate. -/
def spentAnywhere (L : Ledger) (cands : List Transaction) (link : TransactionLink) : Bool :=
  isSpentLink L link || spentInCandidates cands link

/-- Modelled from the spec (§4.3 steps 3–4): walk the inputs in order,
resolving each referenced output (`InputDoesNotExist` when it cannot be
resolved) and rejecting any input whose output is already spent
(`DoubleSpend`); on success, return the resolved outputs in input order. -/
def resolveAndCheckSpends (L : Ledger) (cands : List Transaction) :
    List Input → Except ValidationError (List Output)
  | [] => .ok []
  | i :: rest =>
    match i.fulfills with
    | none => .error .InputDoesNotExist
    | some link =>
      match resolveOutput L cands link with
      | none => .error .InputDoesNotExist
      | some o =>
        if spentAnywhere L cands link then .error .DoubleSpend
        else
          match resolveAndCheckSpends L cands rest with
          | .error e => .error e
          | .ok os => .ok (o :: os)

/-- The links claimed by a list of inputs. -/
def inputLinks (inputs : List Input) : List TransactionLink :=
  inputs.filterMap Input.fulfills

/-- Modelled from the spec (§4.3 step 4, in-batch layer): true when the same
`(transaction_id, output_index)` appears more than once among the inputs. -/
def hasDuplicateLinks (inputs : List Input) : Bool :=
  !(decide (inputLinks inputs).Nodup)

/-- Total amount of a list of outputs. -/
def sumAmounts (os : List Output) : Int :=
  (os.map Output.amount).sum

/-- Modelled from the spec (§4.3 steps 3–5) for TRANSFER/COMPOSE/DECOMPOSE:
resolve inputs and check spends, reject in-batch duplicate links, verify each
fulfillment against the stored condition of the output it spends, and check
conservation of amounts, reporting both sums on mismatch. -/
def validateTransfer (L : Ledger) (cands : List Transaction) (t : Transaction) :
    Except ValidationError Transaction :=
  match resolveAndCheckSpends L cands t.inputs with
  | .error e => .error e
  | .ok outs =>
    if hasDuplicateLinks t.inputs then .error .DoubleSpend
    else if signaturesValid (outs.map Output.public_keys) t.inputs then
      if sumAmounts outs = sumAmounts t.outputs then .ok t
      else .error (.AmountError (sumAmounts outs) (sumAmounts t.outputs))
    else .error .InvalidSignature

/-- Modelled from the spec (§4.3): the validator as a pure function of the
transaction, the committed state, and an optional in-flight candidate list.
Schema and key checks run first, then the identity (hash) check; CREATE
transactions are checked against conditions derived from `owners_before`,
all other operations against the resolved prior outputs. -/
def validate_transaction (L : Ledger) (cands : List Transaction) (t : Transaction) :
    Except ValidationError Transaction :=
  match checkKeys t with
  | .error e => .error e
  | .ok _ =>
    match checkStructure t with
    | .error e => .error e
    | .ok _ =>
      match checkHash t with
      | .error e => .error e
      | .ok _ =>
        if t.operation = .CREATE then
          if signaturesValid (t.inputs.map Input.owners_before) t.inputs then .ok t
          else .error .InvalidSignature
        else validateTransfer L cands t

/-- The three checks of a transaction that do not consult the ledger. -/
def staticChecksOk (t : Transaction) : Prop :=
  checkKeys t = .ok () ∧ checkStructure t = .ok () ∧ checkHash t = .ok ()

/-- Storage backends exercised by the checked-in tests. -/
inductive Backend where
  | tarantool
  | localmongodb
deriving DecidableEq

/-- Write-time failures of the Commit/Storage Gateway (§4.4, §7). -/
inductive StoreError where
  | CriticalDoubleSpend
  | OperationError
deriving DecidableEq

/-- Modelled from the checked-in test `test_double_inclusion`: re-inserting
an already stored transaction id surfaces as `CriticalDoubleSpend` on the
Tarantool backend and as `OperationError` on the others. -/
def duplicateIdError : Backend → StoreError
  | .tarantool => .CriticalDoubleSpend
  | .localmongodb => .OperationError

/-- Whether a transaction with this id is already committed. -/
def hasTransactionId (L : Ledger) (txid : String) : Bool :=
  L.any fun t => decide (t.id = txid)

/-- Whether a transaction claims an output already spent by a committed
transaction. -/
def spendsSpentOutput (L : Ledger) (t : Transaction) : Bool :=
  t.inputs.any fun i =>
    match i.fulfills with
    | some link => isSpentLink L link
    | none => false

/-- Modelled from the spec (§4.4): the atomic store rejects a duplicate
transaction id (backend-specific error) and rejects — never silently accepts
— a second spend of an output already recorded as spent, surfacing it as
`CriticalDoubleSpend`; otherwise the transaction is appended to the committed
ledger. -/
def store_bulk_transactions (bk : Backend) (L : Ledger) :
    List Transaction → Except StoreError Ledger
  | [] => .ok L
  | t :: rest =>
    if hasTransactionId L t.id then .error (duplicateIdError bk)
    else if spendsSpentOutput L t then .error .CriticalDoubleSpend
    else store_bulk_transactions bk (L ++ [t]) rest

/-- Submission failures: validation failures or write-time store failures. -/
inductive SubmitError where
  | invalid (e : ValidationError)
  | storeFailed (e : StoreError)
deriving DecidableEq

/-- Modelled from the spec (§2 control flow): a submitted transaction is
validated and, only on success, handed to the Commit/Storage Gateway. -/
def submit_transaction (bk : Backend) (L : Ledger) (cands : List Transaction)
    (t : Transaction) : Except SubmitError Ledger :=
  match validate_transaction L cands t with
  | .error e => .error (.invalid e)
  | .ok t' =>
    match store_bulk_transactions bk L [t'] with
    | .error e => .error (.storeFailed e)
    | .ok L' => .ok L'

/-- Whether an input's link can be resolved to a prior output. -/
def inputResolvable (L : Ledger) (cands : List Transaction) (i : Input) : Bool :=
  match i.fulfills with
  | none => false
  | some l => (resolveOutput L cands l).isSome

/-- Whether every input of a list resolves to a prior output. -/
def allInputsResolvable (L : Ledger) (cands : List Transaction) (inputs : List Input) : Bool :=
  inputs.all (inputResolvable L cands)

/-- Whether an input claims an output that is already spent (by committed
state or by a supplied candidate). -/
def inputSpent (L : Ledger) (cands : List Transaction) (i : Input) : Bool :=
  match i.fulfills with
  | none => false
  | some l => spentAnywhere L cands l

/-- A first owner key for the concrete scenarios. -/
def pkA : PublicKey := "A"

/-- A second owner key for the concrete scenarios. -/
def pkB : PublicKey := "B"

/-- A well-formed fulfillment carrying a verifying signature of `pkA`. -/
def sigA : Fulfillment := { parses := true, signers := [pkA] }

/-- Modelled from the spec (testable property D): the all-zero placeholder
(sixty-four `0` characters) is not a parseable fulfillment URI. -/
def zeroFulfillment : Fulfillment := { parses := false, signers := [] }

/-- A well-formed asset payload. -/
def sampleAsset : JValue := .obj (.cons "data" (.str "cid0") .nil)

/-- An asset payload whose object carries a key with a reserved dot
character, nested one level deep. -/
def badKeyAsset : JValue := .obj (.cons "good_key" (.obj (.cons "bad.key" (.str "v") .nil)) .nil)

/-- A committed CREATE of one output of amount 1 to `pkA`. -/
def createA : Transaction := withId
  { id := ""
    operation := .CREATE
    inputs := [{ fulfillment := sigA, fulfills := none, owners_before := [pkA] }]
    outputs := [{ amount := 1, public_keys := [pkA] }]
    assets := [sampleAsset]
    metadata := none
    version := "2.0" }

/-- A ledger holding only `createA`. -/
def ledger0 : Ledger := [createA]

/-- The link to the single output of `createA`. -/
def createLink : TransactionLink := { txid := createA.id, output := 0 }

/-- The input spending the single output of `createA`, signed by `pkA`. -/
def spendCreateA : Input :=
  { fulfillment := sigA, fulfills := some createLink, owners_before := [pkA] }

/-- A valid TRANSFER of the `createA` output back to `pkA`. -/
def transfer1 : Transaction := withId
  { id := ""
    operation := .TRANSFER
    inputs := [spendCreateA]
    outputs := [{ amount := 1, public_keys := [pkA] }]
    assets := [.str createA.id]
    metadata := none
    version := "2.0" }

/-- A second TRANSFER spending the same `createA` output, to `pkB`. -/
def transfer2 : Transaction := withId
  { id := ""
    operation := .TRANSFER
    inputs := [spendCreateA]
    outputs := [{ amount := 1, public_keys := [pkB] }]
    assets := [.str createA.id]
    metadata := none
    version := "2.0" }

/-- The ledger after `transfer1` has been committed. -/
def ledger1 : Ledger := [createA, transfer1]

/-- A TRANSFER with the same input listed twice (the duplicated-fulfillments
scenario of `test_cant_spend_same_input_twice_in_tx`). -/
def transferDup : Transaction := withId
  { id := ""
    operation := .TRANSFER
    inputs := [spendCreateA, spendCreateA]
    outputs := [{ amount := 2, public_keys := [pkA] }]
    assets := [.str createA.id]
    metadata := none
    version := "2.0" }

/-- A committed CREATE of one output of amount 10 to `pkA`. -/
def createTen : Transaction := withId
  { id := ""
    operation := .CREATE
    inputs := [{ fulfillment := sigA, fulfills := none, owners_before := [pkA] }]
    outputs := [{ amount := 10, public_keys := [pkA] }]
    assets := [sampleAsset]
    metadata := none
    version := "2.0" }

/-- A ledger holding only `createTen`. -/
def ledgerTen : Ledger := [createTen]

/-- A TRANSFER of the amount-10 output of `createTen` that tries to emit
amount 20 (scenario C of the spec). -/
def transferTwenty : Transaction := withId
  { id := ""
    operation := .TRANSFER
    inputs := [{ fulfillment := sigA, fulfills := some { txid := createTen.id, output := 0 },
                 owners_before := [pkA] }]
    outputs := [{ amount := 20, public_keys := [pkA] }]
    assets := [.str createTen.id]
    metadata := none
    version := "2.0" }

/-- The transaction `createA` with its id replaced by a non-matching hash
(the scenario of `test_post_create_transaction_with_invalid_id`). -/
def invalidIdTx : Transaction :=
  { createA with id := "abcdabcdabcdabcdabcdabcdabcdabcdabcdabcdabcdabcdabcdabcdabcdabcd" }

/-- A CREATE whose fulfillment was replaced by the all-zero placeholder and
whose id was recomputed over the tampered body (the scenario of
`test_post_create_transaction_with_invalid_signature`). -/
def zeroSigTx : Transaction := withId
  { id := ""
    operation := .CREATE
    inputs := [{ fulfillment := zeroFulfillment, fulfills := none, owners_before := [pkA] }]
    outputs := [{ amount := 1, public_keys := [pkA] }]
    assets := [sampleAsset]
    metadata := none
    version := "2.0" }

/-- A TRANSFER whose input references a transaction id absent from the ledger
(the scenario of `test_non_create_input_not_found`). -/
def transferGhost : Transaction := withId
  { id := ""
    operation := .TRANSFER
    inputs := [{ fulfillment := sigA, fulfills := some { txid := "somethingsomething", output := 0 },
                 owners_before := [pkA] }]
    outputs := [{ amount := 1, public_keys := [pkA] }]
    assets := [.str "mock_asset_link"]
    metadata := none
    version := "2.0" }

/-- A CREATE carrying an asset object with a reserved-character key. -/
def badKeyTx : Transaction := withId
  { id := ""
    operation := .CREATE
    inputs := [{ fulfillment := sigA, fulfills := none, owners_before := [pkA] }]
    outputs := [{ amount := 1, public_keys := [pkA] }]
    assets := [badKeyAsset]
    metadata := none
    version := "2.0" }

lemma validate_eq_transfer {L : Ledger} {cands : List Transaction} {t : Transaction}
    (hk : checkKeys t = .ok ()) (hs : checkStructure t = .ok ())
    (hh : checkHash t = .ok ()) (hop : t.operation ≠ .CREATE) :
    validate_transaction L cands t = validateTransfer L cands t := by
  unfold validate_transaction
  rw [hk, hs, hh]
  simp [hop]

lemma validate_eq_create {L : Ledger} {cands : List Transaction} {t : Transaction}
    (hk : checkKeys t = .ok ()) (hs : checkStructure t = .ok ())
    (hh : checkHash t = .ok ()) (hop : t.operation = .CREATE) :
    validate_transaction L cands t =
      if signaturesValid (t.inputs.map Input.owners_before) t.inputs then .ok t
      else .error .InvalidSignature := by
  unfold validate_transaction
  rw [hk, hs, hh]
  simp [hop]

lemma resolve_spent_error {L : Ledger} {cands : List Transaction} (inputs : List Input)
    (hres : allInputsResolvable L cands inputs = true)
    (hspent : inputs.any (inputSpent L cands) = true) :
    resolveAndCheckSpends L cands inputs = .error .DoubleSpend := by
  induction inputs with
  | nil => simp at hspent
  | cons i rest ih =>
    simp only [allInputsResolvable, List.all_cons, Bool.and_eq_true] at hres
    obtain ⟨hri, hrrest⟩ := hres
    cases hful : i.fulfills with
    | none => simp [inputResolvable, hful] at hri
    | some link =>
      have hro : (resolveOutput L cands link).isSome = true := by
        simpa [inputResolvable, hful] using hri
      obtain ⟨o, ho⟩ := Option.isSome_iff_exists.mp hro
      unfold resolveAndCheckSpends
      by_cases hsp : spentAnywhere L cands link = true
      · simp [hful, ho, hsp]
      · have hsp' : spentAnywhere L cands link = false := by
          simpa using hsp
        have hrest : rest.any (inputSpent L cands) = true := by
          rcases List.any_eq_true.mp hspent with ⟨j, hj, hjs⟩
          rcases List.mem_cons.mp hj with hj1 | hj2
          · subst hj1
            simp [inputSpent, hful, hsp'] at hjs
          · exact List.any_eq_true.mpr ⟨j, hj2, hjs⟩
        have hrec := ih hrrest hrest
        simp [hful, ho, hsp', hrec]

lemma resolve_ok_facts {L : Ledger} {cands : List Transaction} {inputs : List Input}
    {outs : List Output} (h : resolveAndCheckSpends L cands inputs = .ok outs) :
    outs.length = inputs.length ∧ ∀ i ∈ inputs, inputSpent L cands i = false := by
  induction inputs generalizing outs with
  | nil =>
    unfold resolveAndCheckSpends at h
    simp only [Except.ok.injEq] at h
    subst h
    simp
  | cons i rest ih =>
    unfold resolveAndCheckSpends at h
    cases hful : i.fulfills with
    | none => simp [hful] at h
    | some link =>
      cases hro : resolveOutput L cands link with
      | none => simp [hful, hro] at h
      | some o =>
        by_cases hsp : spentAnywhere L cands link = true
        · simp [hful, hro, hsp] at h
        · have hsp' : spentAnywhere L cands link = false := by simpa using hsp
          cases hrec : resolveAndCheckSpends L cands rest with
          | error e => simp [hful, hro, hsp', hrec] at h
          | ok os =>
            simp only [hful, hro, hsp', Bool.false_eq_true, if_false, hrec] at h
            obtain ⟨hlen, hall⟩ := ih hrec
            have houts : outs = o :: os := by
              cases h
              rfl
            subst houts
            refine ⟨by simp [hlen], ?_⟩
            intro j hj
            rcases List.mem_cons.mp hj with hj1 | hj2
            · subst hj1; simp [inputSpent, hful, hsp']
            · exact hall j hj2

lemma resolve_clean_ok {L : Ledger} {cands : List Transaction} (inputs : List Input)
    (hres : allInputsResolvable L cands inputs = true)
    (hclean : inputs.all (fun i => !(inputSpent L cands i)) = true) :
    ∃ outs, resolveAndCheckSpends L cands inputs = .ok outs := by
  induction inputs with
  | nil => exact ⟨[], rfl⟩
  | cons i rest ih =>
    simp only [allInputsResolvable, List.all_cons, Bool.and_eq_true] at hres hclean
    obtain ⟨hri, hrrest⟩ := hres
    obtain ⟨hci, hcrest⟩ := hclean
    cases hful : i.fulfills with
    | none => simp [inputResolvable, hful] at hri
    | some link =>
      have hro : (resolveOutput L cands link).isSome = true := by
        simpa [inputResolvable, hful] using hri
      obtain ⟨o, ho⟩ := Option.isSome_iff_exists.mp hro
      have hsp : spentAnywhere L cands link = false := by
        simpa [inputSpent, hful] using hci
      obtain ⟨os, hos⟩ := ih hrrest hcrest
      refine ⟨o :: os, ?_⟩
      unfold resolveAndCheckSpends
      simp [hful, ho, hsp, hos]

lemma resolve_unresolvable_error {L : Ledger} {cands : List Transaction} (inputs : List Input)
    (hclean : inputs.all (fun i => !(inputSpent L cands i)) = true)
    (hghost : inputs.any (fun i => !(inputResolvable L cands i)) = true) :
    resolveAndCheckSpends L cands inputs = .error .InputDoesNotExist := by
  induction inputs with
  | nil => simp at hghost
  | cons i rest ih =>
    simp only [List.all_cons, Bool.and_eq_true] at hclean
    obtain ⟨hci, hcrest⟩ := hclean
    cases hful : i.fulfills with
    | none =>
      unfold resolveAndCheckSpends
      simp [hful]
    | some link =>
      cases hro : resolveOutput L cands link with
      | none =>
        unfold resolveAndCheckSpends
        simp [hful, hro]
      | some o =>
        have hri : inputResolvable L cands i = true := by
          simp [inputResolvable, hful, hro]
        have hrest : rest.any (fun j => !(inputResolvable L cands j)) = true := by
          rcases List.any_eq_true.mp hghost with ⟨j, hj, hjs⟩
          rcases List.mem_cons.mp hj with hj1 | hj2
          · subst hj1; rw [hri] at hjs; simp at hjs
          · exact List.any_eq_true.mpr ⟨j, hj2, hjs⟩
        have hsp : spentAnywhere L cands link = false := by
          simpa [inputSpent, hful] using hci
        have hrec := ih hcrest hrest
        unfold resolveAndCheckSpends
        simp [hful, hro, hsp, hrec]

lemma signaturesValid_false_of_unparsed {conds : List (List PublicKey)} {inputs : List Input}
    (hlen : conds.length = inputs.length)
    (hbad : ∃ i ∈ inputs, i.fulfillment.parses = false) :
    signaturesValid conds inputs = false := by
  induction inputs generalizing conds with
  | nil =>
    rcases hbad with ⟨i, hi, _⟩
    simp at hi
  | cons i rest ih =>
    cases conds with
    | nil => simp at hlen
    | cons c cs =>
      simp only [signaturesValid, List.zip_cons_cons, List.all_cons, Bool.and_eq_false_iff]
      rcases hbad with ⟨j, hj, hjp⟩
      rcases List.mem_cons.mp hj with hj1 | hj2
      · subst hj1
        left
        simp [fulfillmentValid, hjp]
      · right
        have hlen' : cs.length = rest.length := by simpa using hlen
        exact ih hlen' ⟨j, hj2, hjp⟩

lemma checkStructure_create_fulfills {t : Transaction}
    (hs : checkStructure t = .ok ()) (hop : t.operation = .CREATE) :
    ∀ i ∈ t.inputs, i.fulfills = none := by
  unfold checkStructure at hs
  rw [hop] at hs
  by_cases h1 : t.inputs.isEmpty = true
  · simp [h1] at hs
  · by_cases h2 : t.outputs.isEmpty = true
    · simp [h1, h2] at hs
    · by_cases h3 : (t.outputs.any fun o => decide (o.amount ≤ 0)) = true
      · simp [h1, h2, h3] at hs
      · by_cases h4 : (t.inputs.all fun i => i.fulfills.isNone) = true
        · intro i hi
          have := List.all_eq_true.mp h4 i hi
          simpa [Option.isNone_iff_eq_none] using this
        · simp [h1, h2, h3, h4] at hs

lemma validateTransfer_ok_elim {L : Ledger} {cands : List Transaction} {t u : Transaction}
    (h : validateTransfer L cands t = .ok u) :
    u = t ∧ ∃ outs, resolveAndCheckSpends L cands t.inputs = .ok outs ∧
      hasDuplicateLinks t.inputs = false ∧
      signaturesValid (outs.map Output.public_keys) t.inputs = true ∧
      sumAmounts outs = sumAmounts t.outputs := by
  unfold validateTransfer at h
  cases hres : resolveAndCheckSpends L cands t.inputs with
  | error e => simp [hres] at h
  | ok outs =>
    rw [hres] at h
    by_cases hdup : hasDuplicateLinks t.inputs = true
    · simp [hdup] at h
    · have hdup' : hasDuplicateLinks t.inputs = false := by simpa using hdup
      by_cases hsig : signaturesValid (outs.map Output.public_keys) t.inputs = true
      · by_cases hsum : sumAmounts outs = sumAmounts t.outputs
        · simp only [hdup', Bool.false_eq_true, if_false, hsig, if_true, hsum] at h
          cases h
          exact ⟨rfl, outs, rfl, hdup', hsig, hsum⟩
        · simp [hdup', hsig, hsum] at h
      · simp [hdup', hsig] at h

lemma validate_ok_elim {L : Ledger} {cands : List Transaction} {t u : Transaction}
    (h : validate_transaction L cands t = .ok u) :
    u = t ∧ checkKeys t = .ok () ∧ checkStructure t = .ok () ∧ checkHash t = .ok () := by
  unfold validate_transaction at h
  cases hk : checkKeys t with
  | error e => simp [hk] at h
  | ok v =>
    cases v
    cases hs : checkStructure t with
    | error e => simp [hk, hs] at h
    | ok v =>
      cases v
      cases hh : checkHash t with
      | error e => simp [hk, hs, hh] at h
      | ok v =>
        cases v
        refine ⟨?_, rfl, rfl, rfl⟩
        simp only [hk, hs, hh] at h
        by_cases hop : t.operation = .CREATE
        · rw [if_pos hop] at h
          by_cases hsig : signaturesValid (t.inputs.map Input.owners_before) t.inputs = true
          · rw [if_pos hsig] at h
            cases h
            rfl
          · simp [hsig] at h
        · rw [if_neg hop] at h
          exact (validateTransfer_ok_elim h).1

lemma validate_ok_unspent {L : Ledger} {cands : List Transaction} {t u : Transaction}
    (h : validate_transaction L cands t = .ok u) :
    ∀ i ∈ t.inputs, inputSpent L cands i = false := by
  obtain ⟨_, hk, hs, hh⟩ := validate_ok_elim h
  by_cases hop : t.operation = .CREATE
  · intro i hi
    have := checkStructure_create_fulfills hs hop i hi
    simp [inputSpent, this]
  · rw [validate_eq_transfer hk hs hh hop] at h
    obtain ⟨_, outs, hres, _⟩ := validateTransfer_ok_elim h
    exact (resolve_ok_facts hres).2

lemma store_singleton_ok {bk : Backend} {L : Ledger} {t : Transaction}
    (hid : hasTransactionId L t.id = false) (hsp : spendsSpentOutput L t = false) :
    store_bulk_transactions bk L [t] = .ok (L ++ [t]) := by
  unfold store_bulk_transactions
  simp [hid, hsp, store_bulk_transactions]

lemma store_singleton_dup {bk : Backend} {L : Ledger} {t : Transaction}
    (hid : hasTransactionId L t.id = true) :
    store_bulk_transactions bk L [t] = .error (duplicateIdError bk) := by
  unfold store_bulk_transactions
  simp [hid]

lemma store_singleton_spent {bk : Backend} {L : Ledger} {t : Transaction}
    (hid : hasTransactionId L t.id = false) (hsp : spendsSpentOutput L t = true) :
    store_bulk_transactions bk L [t] = .error .CriticalDoubleSpend := by
  unfold store_bulk_transactions
  simp [hid, hsp]

lemma get_spent_append {L₁ L₂ : Ledger} {txid : String} {idx : Nat} :
    get_spent (L₁ ++ L₂) txid idx = (get_spent L₁ txid idx).or (get_spent L₂ txid idx) := by
  simp [get_spent, List.find?_append]

lemma spendsSpentOutput_false_of_unspent {L : Ledger} {t : Transaction}
    (h : ∀ i ∈ t.inputs, inputSpent L [] i = false) :
    spendsSpentOutput L t = false := by
  unfold spendsSpentOutput
  rw [List.any_eq_false]
  intro i hi
  have hIS := h i hi
  cases hful : i.fulfills with
  | none => simp [hful]
  | some link =>
    have : spentAnywhere L [] link = false := by
      simpa [inputSpent, hful] using hIS
    have hlink : isSpentLink L link = false := by
      rcases Bool.or_eq_false_iff.mp (by simpa [spentAnywhere] using this) with ⟨h1, _⟩
      exact h1
    simp [hful, hlink]

lemma spendsSpentOutput_true_of_witness {L : Ledger} {t : Transaction} {i : Input}
    {link : TransactionLink} (hi : i ∈ t.inputs) (hful : i.fulfills = some link)
    (hspent : isSpentLink L link = true) :
    spendsSpentOutput L t = true := by
  unfold spendsSpentOutput
  rw [List.any_eq_true]
  refine ⟨i, hi, ?_⟩
  simp [hful, hspent]

lemma store_singleton_ok_elim {bk : Backend} {L L' : Ledger} {t : Transaction}
    (h : store_bulk_transactions bk L [t] = .ok L') :
    hasTransactionId L t.id = false ∧ spendsSpentOutput L t = false ∧ L' = L ++ [t] := by
  unfold store_bulk_transactions at h
  by_cases h1 : hasTransactionId L t.id = true
  · simp [h1] at h
  · have h1' : hasTransactionId L t.id = false := by simpa using h1
    by_cases h2 : spendsSpentOutput L t = true
    · simp [h1', h2] at h
    · have h2' : spendsSpentOutput L t = false := by simpa using h2
      simp only [h1', h2', Bool.false_eq_true, if_false, store_bulk_transactions,
        Except.ok.injEq] at h
      exact ⟨h1', h2', h.symm⟩

lemma isSpentLink_false_of_unspent {L : Ledger} {t : Transaction} {i : Input}
    {link : TransactionLink} (hsp : spendsSpentOutput L t = false)
    (hi : i ∈ t.inputs) (hful : i.fulfills = some link) :
    isSpentLink L link = false := by
  unfold spendsSpentOutput at hsp
  have := List.any_eq_false.mp hsp i hi
  simp only [hful] at this
  simpa using this

set_option maxRecDepth 16384

/-- C9: for every transaction that passes all validation checks,
`validate_transaction` returns the validated transaction itself, equal to the
transaction that was passed in — validation does not rewrite or normalize a
valid transaction. -/
theorem C9_validate_returns_input_transaction (L : Ledger) (cands : List Transaction)
    (t u : Transaction) (h : validate_transaction L cands t = .ok u) : u = t :=
  (validate_ok_elim h).1

/-- Witness for C9: the concrete CREATE transaction `createA` validates
successfully and is returned unchanged. -/
theorem C9_validate_returns_input_transaction_witness :
    validate_transaction [] [] createA = .ok createA ∧ createA = createA :=
  ⟨rfl, C9_validate_returns_input_transaction [] [] createA createA rfl⟩

/-- C10: storing a batch containing a transaction whose id is already durably
stored fails rather than being silently accepted as idempotent: it raises
`CriticalDoubleSpend` on the Tarantool backend and `OperationError` on the
other backends. -/
theorem C10_double_inclusion_rejected (L : Ledger) (t : Transaction)
    (h : ∃ v ∈ L, v.id = t.id) :
    store_bulk_transactions .tarantool L [t] = .error .CriticalDoubleSpend ∧
    store_bulk_transactions .localmongodb L [t] = .error .OperationError := by
  have hid : hasTransactionId L t.id = true := by
    rcases h with ⟨v, hv, hvid⟩
    exact List.any_eq_true.mpr ⟨v, hv, by simp [hvid]⟩
  exact ⟨store_singleton_dup hid, store_singleton_dup hid⟩

/-- Witness for C10: re-storing the already committed `createA` fails on both
backends with the backend-specific error. -/
theorem C10_double_inclusion_rejected_witness :
    (∃ v ∈ ledger0, v.id = createA.id) ∧
    store_bulk_transactions .tarantool ledger0 [createA] = .error .CriticalDoubleSpend ∧
    store_bulk_transactions .localmongodb ledger0 [createA] = .error .OperationError :=
  ⟨⟨createA, by simp [ledger0], rfl⟩,
   C10_double_inclusion_rejected ledger0 createA ⟨createA, by simp [ledger0], rfl⟩⟩

/-- C1: a transaction whose input references an output already spent by a
different, already-committed transaction fails validation with `DoubleSpend`
(provided it reaches the double-spend stage: static checks pass and its
inputs resolve); and when two transactions spending the same output both pass
validation against the same committed state, storing the first succeeds while
the attempt to store the second at the commit boundary fails with
`CriticalDoubleSpend` rather than succeeding silently. -/
theorem C1_double_spend_and_commit_guard :
    (∀ (L : Ledger) (cands : List Transaction) (t v : Transaction) (link : TransactionLink),
      staticChecksOk t → t.operation ≠ .CREATE →
      allInputsResolvable L cands t.inputs = true →
      (∃ i ∈ t.inputs, i.fulfills = some link) →
      get_spent L link.txid link.output = some v → v.id ≠ t.id →
      validate_transaction L cands t = .error .DoubleSpend) ∧
    (∀ (bk : Backend) (L : Ledger) (t1 t2 : Transaction) (link : TransactionLink),
      validate_transaction L [] t1 = .ok t1 →
      validate_transaction L [] t2 = .ok t2 →
      (∃ i ∈ t1.inputs, i.fulfills = some link) →
      (∃ i ∈ t2.inputs, i.fulfills = some link) →
      hasTransactionId L t1.id = false →
      hasTransactionId (L ++ [t1]) t2.id = false →
      store_bulk_transactions bk L [t1] = .ok (L ++ [t1]) ∧
      store_bulk_transactions bk (L ++ [t1]) [t2] = .error .CriticalDoubleSpend) := by
  constructor
  · intro L cands t v link hstat hop hres hwit hsp hneq
    obtain ⟨hk, hs, hh⟩ := hstat
    rw [validate_eq_transfer hk hs hh hop]
    have hspent : t.inputs.any (inputSpent L cands) = true := by
      rcases hwit with ⟨i, hi, hful⟩
      refine List.any_eq_true.mpr ⟨i, hi, ?_⟩
      have hlink : isSpentLink L link = true := by
        simp [isSpentLink, hsp]
      simp [inputSpent, hful, spentAnywhere, hlink]
    have hds := resolve_spent_error t.inputs hres hspent
    unfold validateTransfer
    simp [hds]
  · intro bk L t1 t2 link hv1 hv2 hw1 hw2 hid1 hid2
    have hun1 : ∀ i ∈ t1.inputs, inputSpent L [] i = false := validate_ok_unspent hv1
    have hun2 : ∀ i ∈ t2.inputs, inputSpent L [] i = false := validate_ok_unspent hv2
    have hsp1 : spendsSpentOutput L t1 = false := spendsSpentOutput_false_of_unspent hun1
    refine ⟨store_singleton_ok hid1 hsp1, ?_⟩
    rcases hw1 with ⟨i1, hi1, hf1⟩
    rcases hw2 with ⟨i2, hi2, hf2⟩
    have hone : get_spent [t1] link.txid link.output = some t1 := by
      unfold get_spent
      refine List.find?_cons_of_pos _ ?_
      refine List.any_eq_true.mpr ⟨i1, hi1, ?_⟩
      simp [hf1]
    have hspentlink : isSpentLink (L ++ [t1]) link = true := by
      unfold isSpentLink
      rw [get_spent_append, hone]
      cases hL : get_spent L link.txid link.output <;> simp [Option.or]
    have hsp2 : spendsSpentOutput (L ++ [t1]) t2 = true :=
      spendsSpentOutput_true_of_witness hi2 hf2 hspentlink
    exact store_singleton_spent hid2 hsp2

/-- Witness for C1: `transfer2` is rejected with `DoubleSpend` against the
ledger in which `transfer1` already spent the `createA` output, and at the
commit boundary storing `transfer1` succeeds while storing `transfer2`
afterwards fails with `CriticalDoubleSpend`. -/
theorem C1_double_spend_and_commit_guard_witness :
    validate_transaction ledger1 [] transfer2 = .error .DoubleSpend ∧
    store_bulk_transactions .tarantool ledger0 [transfer1] = .ok (ledger0 ++ [transfer1]) ∧
    store_bulk_transactions .tarantool (ledger0 ++ [transfer1]) [transfer2] =
      .error .CriticalDoubleSpend := by
  refine ⟨?_, ?_⟩
  · exact C1_double_spend_and_commit_guard.1 ledger1 [] transfer2 transfer1 createLink
      ⟨rfl, rfl, rfl⟩ (by decide) rfl
      ⟨spendCreateA, by simp [transfer2, withId], rfl⟩ rfl (by decide)
  · exact C1_double_spend_and_commit_guard.2 .tarantool ledger0 transfer1 transfer2 createLink
      rfl rfl
      ⟨spendCreateA, by simp [transfer1, withId], rfl⟩
      ⟨spendCreateA, by simp [transfer2, withId], rfl⟩
      rfl rfl

/-- C2: a transaction under validation fails with `DoubleSpend` when the same
`(transaction_id, output_index)` appears more than once among its own inputs,
or when one of its inputs is also claimed by a transaction in the explicitly
supplied list of not-yet-committed candidates (provided it reaches the
double-spend stage: static checks pass and its inputs resolve). -/
theorem C2_in_batch_double_spend (L : Ledger) (cands : List Transaction) (t : Transaction)
    (hstat : staticChecksOk t) (hop : t.operation ≠ .CREATE)
    (hres : allInputsResolvable L cands t.inputs = true)
    (hdisj : hasDuplicateLinks t.inputs = true ∨
      ∃ i ∈ t.inputs, ∃ link, i.fulfills = some link ∧ spentInCandidates cands link = true) :
    validate_transaction L cands t = .error .DoubleSpend := by
  obtain ⟨hk, hs, hh⟩ := hstat
  rw [validate_eq_transfer hk hs hh hop]
  by_cases hany : t.inputs.any (inputSpent L cands) = true
  · have hds := resolve_spent_error t.inputs hres hany
    unfold validateTransfer
    simp [hds]
  · have hclean : t.inputs.all (fun i => !(inputSpent L cands i)) = true := by
      rw [List.all_eq_true]
      intro i hi
      have : inputSpent L cands i = false := by
        have := List.any_eq_false.mp (by simpa using hany) i hi
        simpa using this
      simp [this]
    rcases hdisj with hdup | ⟨i, hi, link, hful, hcand⟩
    · obtain ⟨outs, houts⟩ := resolve_clean_ok t.inputs hres hclean
      unfold validateTransfer
      simp [houts, hdup]
    · exfalso
      apply hany
      refine List.any_eq_true.mpr ⟨i, hi, ?_⟩
      simp [inputSpent, hful, spentAnywhere, hcand]

/-- Witness for C2: the duplicated-fulfillments transfer is rejected with
`DoubleSpend`, and so is a transfer whose input is already claimed by a
candidate transaction supplied alongside validation. -/
theorem C2_in_batch_double_spend_witness :
    validate_transaction ledger0 [] transferDup = .error .DoubleSpend ∧
    validate_transaction ledger0 [transfer1] transfer2 = .error .DoubleSpend := by
  constructor
  · exact C2_in_batch_double_spend ledger0 [] transferDup
      ⟨rfl, rfl, rfl⟩ (by decide) rfl (Or.inl rfl)
  · exact C2_in_batch_double_spend ledger0 [transfer1] transfer2
      ⟨rfl, rfl, rfl⟩ (by decide) rfl
      (Or.inr ⟨spendCreateA, by simp [transfer2, withId], createLink, rfl, rfl⟩)

/-- C3: a TRANSFER whose resolved input amounts do not sum to its output
amounts fails validation with `AmountError` carrying both sums, the rendered
error message names both sums verbatim, and submitting such a transaction
never commits it — the submission pipeline reports the same error instead of
storing. -/
theorem C3_amount_conservation (bk : Backend) (L : Ledger) (cands : List Transaction)
    (t : Transaction) (outs : List Output)
    (hstat : staticChecksOk t) (hop : t.operation = .TRANSFER)
    (hres : resolveAndCheckSpends L cands t.inputs = .ok outs)
    (hdup : hasDuplicateLinks t.inputs = false)
    (hsig : signaturesValid (outs.map Output.public_keys) t.inputs = true)
    (hsum : sumAmounts outs ≠ sumAmounts t.outputs) :
    validate_transaction L cands t =
      .error (.AmountError (sumAmounts outs) (sumAmounts t.outputs)) ∧
    (ValidationError.AmountError (sumAmounts outs) (sumAmounts t.outputs)).message =
      "The amount used in the inputs `" ++ toString (sumAmounts outs)
        ++ "` needs to be same as the amount used in the outputs `"
        ++ toString (sumAmounts t.outputs) ++ "`" ∧
    submit_transaction bk L cands t =
      .error (.invalid (.AmountError (sumAmounts outs) (sumAmounts t.outputs))) := by
  obtain ⟨hk, hs, hh⟩ := hstat
  have hop' : t.operation ≠ .CREATE := by
    rw [hop]
    intro hcon
    cases hcon
  have hval : validate_transaction L cands t =
      .error (.AmountError (sumAmounts outs) (sumAmounts t.outputs)) := by
    rw [validate_eq_transfer hk hs hh hop']
    unfold validateTransfer
    simp [hres, hdup, hsig, hsum]
  refine ⟨hval, rfl, ?_⟩
  unfold submit_transaction
  rw [hval]

/-- Witness for C3: the scenario-C transfer of an amount-10 output emitting
amount 20 fails with `AmountError 10 20`, whose message names both sums, and
its submission does not commit. -/
theorem C3_amount_conservation_witness :
    validate_transaction ledgerTen [] transferTwenty = .error (.AmountError 10 20) ∧
    (ValidationError.AmountError 10 20).message =
      "The amount used in the inputs `10` needs to be same as the amount used in the outputs `20`" ∧
    submit_transaction .tarantool ledgerTen [] transferTwenty =
      .error (.invalid (.AmountError 10 20)) := by
  exact C3_amount_conservation .tarantool ledgerTen [] transferTwenty
    [{ amount := 10, public_keys := [pkA] }]
    ⟨rfl, rfl, rfl⟩ rfl rfl rfl rfl (by decide)

/-- C4: tampering with a signed transaction is never silently accepted —
replacing the id with a non-matching hash makes validation fail with
`InvalidHash` (whatever the ledger and candidate list), and replacing a
fulfillment with an unparseable placeholder (such as the all-zero string)
makes validation fail with `InvalidSignature`, both for CREATE transactions
and for spending transactions that reach the signature stage. -/
theorem C4_tamper_rejected :
    (∀ (L : Ledger) (cands : List Transaction) (t : Transaction),
      checkKeys t = .ok () → checkStructure t = .ok () → t.id ≠ hashOfBody t →
      validate_transaction L cands t = .error .InvalidHash) ∧
    (∀ (L : Ledger) (cands : List Transaction) (t : Transaction),
      staticChecksOk t →
      (∃ i ∈ t.inputs, i.fulfillment.parses = false) →
      (t.operation = .CREATE ∨
        (∃ outs, resolveAndCheckSpends L cands t.inputs = .ok outs ∧
          hasDuplicateLinks t.inputs = false)) →
      validate_transaction L cands t = .error .InvalidSignature) := by
  constructor
  · intro L cands t hk hs hid
    have hh : checkHash t = .error .InvalidHash := by
      unfold checkHash
      rw [if_neg hid]
    unfold validate_transaction
    rw [hk, hs, hh]
  · intro L cands t hstat hbad hdisj
    obtain ⟨hk, hs, hh⟩ := hstat
    by_cases hop : t.operation = .CREATE
    · rw [validate_eq_create hk hs hh hop]
      have hlen : (t.inputs.map Input.owners_before).length = t.inputs.length := by simp
      have hsig := signaturesValid_false_of_unparsed hlen hbad
      simp [hsig]
    · rcases hdisj with hop' | ⟨outs, hres, hdup⟩
      · exact absurd hop' hop
      · rw [validate_eq_transfer hk hs hh hop]
        have hlen : (outs.map Output.public_keys).length = t.inputs.length := by
          simpa using (resolve_ok_facts hres).1
        have hsig := signaturesValid_false_of_unparsed hlen hbad
        unfold validateTransfer
        simp [hres, hdup, hsig]

/-- Witness for C4: `createA` with its id swapped for a non-matching hash is
rejected with `InvalidHash`, and the CREATE whose fulfillment is the all-zero
placeholder is rejected with `InvalidSignature`. -/
theorem C4_tamper_rejected_witness :
    validate_transaction [] [] invalidIdTx = .error .InvalidHash ∧
    validate_transaction [] [] zeroSigTx = .error .InvalidSignature := by
  constructor
  · exact C4_tamper_rejected.1 [] [] invalidIdTx rfl rfl (by decide)
  · exact C4_tamper_rejected.2 [] [] zeroSigTx ⟨rfl, rfl, rfl⟩
      ⟨{ fulfillment := zeroFulfillment, fulfills := none, owners_before := [pkA] },
        by simp [zeroSigTx, withId], rfl⟩
      (Or.inl rfl)

/-- C5: `get_spent` returns `none` for an output no committed transaction
spends, and after a transfer spending that output is successfully committed
through the store gateway, `get_spent` on it returns that transfer. -/
theorem C5_get_spent_tracks_commits :
    (∀ (L : Ledger) (txid : String) (idx : Nat),
      (∀ v ∈ L, ∀ i ∈ v.inputs, i.fulfills ≠ some ⟨txid, idx⟩) →
      get_spent L txid idx = none) ∧
    (∀ (bk : Backend) (L : Ledger) (tr : Transaction) (link : TransactionLink) (i : Input),
      i ∈ tr.inputs → i.fulfills = some link →
      store_bulk_transactions bk L [tr] = .ok (L ++ [tr]) →
      get_spent (L ++ [tr]) link.txid link.output = some tr) := by
  constructor
  · intro L txid idx h
    unfold get_spent
    rw [List.find?_eq_none]
    intro v hv
    simp only [Bool.not_eq_true, List.any_eq_false]
    intro i hi
    have := h v hv i hi
    simpa using this
  · intro bk L tr link i hi hful hstore
    obtain ⟨_, hsp, _⟩ := store_singleton_ok_elim hstore
    have hnone : get_spent L link.txid link.output = none := by
      have hfalse : isSpentLink L link = false := isSpentLink_false_of_unspent hsp hi hful
      unfold isSpentLink at hfalse
      exact Option.not_isSome_iff_eq_none.mp (by simp [hfalse])
    rw [get_spent_append, hnone, Option.none_or]
    unfold get_spent
    refine List.find?_cons_of_pos _ ?_
    refine List.any_eq_true.mpr ⟨i, hi, ?_⟩
    simp [hful]

/-- Witness for C5: the `createA` output is unspent in `ledger0`, and after
committing `transfer1` the spender returned by `get_spent` is `transfer1`. -/
theorem C5_get_spent_tracks_commits_witness :
    get_spent ledger0 createLink.txid createLink.output = none ∧
    get_spent (ledger0 ++ [transfer1]) createLink.txid createLink.output = some transfer1 := by
  constructor
  · exact C5_get_spent_tracks_commits.1 ledger0 createLink.txid createLink.output (by decide)
  · exact C5_get_spent_tracks_commits.2 .tarantool ledger0 transfer1 createLink spendCreateA
      (by simp [transfer1, withId]) rfl rfl

/-- C6: a non-CREATE transaction with an input whose referenced output cannot
be resolved — unknown transaction id or out-of-range output index — fails
validation with `InputDoesNotExist` (provided static checks pass and no
resolvable input of it is already spent, so no earlier check preempts the
existence failure). -/
theorem C6_input_does_not_exist (L : Ledger) (cands : List Transaction) (t : Transaction)
    (hstat : staticChecksOk t) (hop : t.operation ≠ .CREATE)
    (hghost : t.inputs.any (fun i => !(inputResolvable L cands i)) = true)
    (hclean : t.inputs.all (fun i => !(inputSpent L cands i)) = true) :
    validate_transaction L cands t = .error .InputDoesNotExist := by
  obtain ⟨hk, hs, hh⟩ := hstat
  rw [validate_eq_transfer hk hs hh hop]
  have hres := resolve_unresolvable_error t.inputs hclean hghost
  unfold validateTransfer
  simp [hres]

/-- Witness for C6: the transfer referencing the unknown transaction id
`somethingsomething` is rejected with `InputDoesNotExist`. -/
theorem C6_input_does_not_exist_witness :
    validate_transaction ledger0 [] transferGhost = .error .InputDoesNotExist :=
  C6_input_does_not_exist ledger0 [] transferGhost ⟨rfl, rfl, rfl⟩ (by decide) rfl rfl

/-- Counterexample for C7 as stated: in the ledger where `transfer1` has
spent the `createA` output, that output's link is spent, yet
`filter_spent_outputs` applied to the singleton list holding it returns the
empty list — not the spent subset `[createLink]` the claim promises
(`filter_spent_outputs` removes the spent links; the two filter functions'
denotations are the opposite of the claim's). -/
theorem C7_filters_counterexample :
    isSpentLink ledger1 createLink = true ∧
    filter_spent_outputs ledger1 [createLink] = [] ∧
    filter_unspent_outputs ledger1 [createLink] = [createLink] ∧
    filter_spent_outputs ledger1 [createLink] ≠ [createLink] := by
  refine ⟨rfl, rfl, rfl, ?_⟩
  intro h
  rw [show filter_spent_outputs ledger1 [createLink] = [] from rfl] at h
  exact List.cons_ne_nil _ _ h.symm

/-- C7 (amended): `filter_spent_outputs` removes the already-spent links,
returning exactly the subset not spent, and `filter_unspent_outputs` removes
the unspent links, returning exactly the subset already spent; the two
results are disjoint and their union is the input set; consequently
`get_outputs_filtered pk (some true)` is the spent subset of
`get_outputs_by_public_key pk`, `get_outputs_filtered pk (some false)` the
unspent subset, and with no `spent` argument the full set is returned
unfiltered. -/
theorem C7_filters_partition (L : Ledger) (links : List TransactionLink) (pk : PublicKey) :
    (∀ l, l ∈ filter_spent_outputs L links ↔ (l ∈ links ∧ isSpentLink L l = false)) ∧
    (∀ l, l ∈ filter_unspent_outputs L links ↔ (l ∈ links ∧ isSpentLink L l = true)) ∧
    (∀ l, ¬(l ∈ filter_spent_outputs L links ∧ l ∈ filter_unspent_outputs L links)) ∧
    (∀ l, l ∈ links ↔ (l ∈ filter_spent_outputs L links ∨ l ∈ filter_unspent_outputs L links)) ∧
    get_outputs_filtered L pk (some true) =
      filter_unspent_outputs L (get_outputs_by_public_key L pk) ∧
    get_outputs_filtered L pk (some false) =
      filter_spent_outputs L (get_outputs_by_public_key L pk) ∧
    get_outputs_filtered L pk none = get_outputs_by_public_key L pk := by
  have hspent : ∀ l, l ∈ filter_spent_outputs L links ↔ (l ∈ links ∧ isSpentLink L l = false) := by
    intro l
    simp [filter_spent_outputs, List.mem_filter]
  have hunspent : ∀ l, l ∈ filter_unspent_outputs L links ↔
      (l ∈ links ∧ isSpentLink L l = true) := by
    intro l
    simp [filter_unspent_outputs, List.mem_filter]
  refine ⟨hspent, hunspent, ?_, ?_, rfl, rfl, rfl⟩
  · intro l ⟨h1, h2⟩
    have e1 := ((hspent l).mp h1).2
    have e2 := ((hunspent l).mp h2).2
    rw [e1] at e2
    cases e2
  · intro l
    constructor
    · intro hl
      cases hIS : isSpentLink L l with
      | false => exact Or.inl ((hspent l).mpr ⟨hl, hIS⟩)
      | true => exact Or.inr ((hunspent l).mpr ⟨hl, hIS⟩)
    · intro h
      rcases h with h | h
      · exact ((hspent l).mp h).1
      · exact ((hunspent l).mp h).1

/-- Witness for C7 (amended): at the concrete ledger `ledger1` the spent link
`createLink` is produced by `filter_unspent_outputs` and the unfiltered
dispatch returns the ownership list unchanged. -/
theorem C7_filters_partition_witness :
    createLink ∈ filter_unspent_outputs ledger1 [createLink] ∧
    get_outputs_filtered ledger1 pkA none = get_outputs_by_public_key ledger1 pkA := by
  constructor
  · exact ((C7_filters_partition ledger1 [createLink] pkA).2.1 createLink).mpr
      ⟨by simp, rfl⟩
  · exact (C7_filters_partition ledger1 [createLink] pkA).2.2.2.2.2.2

/-- C8: a transaction whose asset or metadata object contains a key with a
`.`, `$`, or null character at any nesting depth is rejected by schema
validation with an error naming the offending key, whatever the ledger,
candidate list and fulfillment contents — the key check is the first stage of
the validator and consults neither the cryptographic layer nor storage; a
transaction whose keys are all well formed passes the key check. -/
theorem C8_reserved_key_rejected :
    (∀ (L : Ledger) (cands : List Transaction) (t : Transaction) (k : String),
      findBadKeyList t.assets = some k →
      validate_transaction L cands t = .error (.SchemaError (invalidKeyMessage k "asset"))) ∧
    (∀ (L : Ledger) (cands : List Transaction) (t : Transaction) (k : String),
      findBadKeyList t.assets = none → findBadKeyMetadata t = some k →
      validate_transaction L cands t = .error (.SchemaError (invalidKeyMessage k "metadata"))) ∧
    (∀ t : Transaction,
      findBadKeyList t.assets = none → findBadKeyMetadata t = none →
      checkKeys t = .ok ()) := by
  refine ⟨?_, ?_, ?_⟩
  · intro L cands t k hk
    have hke : checkKeys t = .error (.SchemaError (invalidKeyMessage k "asset")) := by
      unfold checkKeys
      rw [hk]
    unfold validate_transaction
    rw [hke]
  · intro L cands t k ha hm
    have hke : checkKeys t = .error (.SchemaError (invalidKeyMessage k "metadata")) := by
      unfold checkKeys
      rw [ha, hm]
    unfold validate_transaction
    rw [hke]
  · intro t ha hm
    unfold checkKeys
    rw [ha, hm]

/-- Witness for C8: the CREATE carrying the nested `bad.key` asset object is
rejected with the error naming that key, independently of the ledger, while
`createA` with well-formed keys passes the key check. -/
theorem C8_reserved_key_rejected_witness :
    validate_transaction ledger1 [transfer1] badKeyTx =
      .error (.SchemaError (invalidKeyMessage "bad.key" "asset")) ∧
    checkKeys createA = .ok () := by
  constructor
  · exact C8_reserved_key_rejected.1 ledger1 [transfer1] badKeyTx "bad.key" rfl
  · exact C8_reserved_key_rejected.2.2 createA rfl rfl
